import Mathlib

/-!
Shallow embedding of the bingo-game gateway service (`src/main.rs`).

The service is a Rocket HTTP gateway over per-chain ethers contract
clients.  Remote behaviour (the Ledger Client) is abstracted as an
`Oracle` record holding the outcome of each possible remote operation;
every handler is embedded as a pure function from its inputs and the
oracle to its HTTP-level result paired with the ordered trace of
lock/lookup/remote events it performs.  Machine integers are `Nat`/`Int`
with explicit `% 2^w` where Rust truncates.
-/

namespace Bingo

/-- A 256-bit word is modelled as a `Nat`; `ethers::U256` values read from
the contract are arbitrary naturals below `2^256` (the bound is irrelevant
to the properties proved here). -/
abbrev U256 := Nat

/-- `U256::as_u64` from the `primitive-types` crate: returns the value when
it fits in 64 bits, panics otherwise (modelled as `none`). -/
def u256AsU64 (n : Nat) : Option Nat :=
  if n < 2 ^ 64 then some n else none

/-- `U256::as_u32`: returns the value when it fits in 32 bits, panics
otherwise (modelled as `none`). -/
def u256AsU32 (n : Nat) : Option Nat :=
  if n < 2 ^ 32 then some n else none

/-- Rust `u32 as i8`: truncate to the low 8 bits and reinterpret as a
signed byte. -/
def u32AsI8 (n : Nat) : Int :=
  if n % 256 < 128 then ((n % 256 : Nat) : Int) else ((n % 256 : Nat) : Int) - 256

/-- Rust `u32 as i32`: reinterpret the 32-bit pattern as signed. -/
def u32AsI32 (n : Nat) : Int :=
  if n % 2 ^ 32 < 2 ^ 31 then ((n % 2 ^ 32 : Nat) : Int) else ((n % 2 ^ 32 : Nat) : Int) - 2 ^ 32

/-- The tuple returned by the contract's `getCurrentGameState` view call
(`startTime, lastDrawTime, numberCount, drawnNumbers, isEnded, playerCount,
isStarted`). -/
structure GameStateTuple where
  startTime : U256
  lastDrawTime : U256
  numberCount : U256
  drawnNumbers : List U256
  isEnded : Bool
  playerCount : U256
  isStarted : Bool
  deriving Repr, DecidableEq

/-- The `GameState` response struct of `main.rs` (fields `u64, u64, i8,
Vec<i8>, bool, i32, bool`). -/
structure GameState where
  start_time : Nat
  last_draw_time : Nat
  drawn_numbers_count : Int
  drawn_numbers : List Int
  is_ended : Bool
  player_count : Int
  is_started : Bool
  deriving Repr, DecidableEq

/-- The elementwise `as_u32` over the drawn-numbers list; a panic on any
element (modelled as `none`) aborts the whole conversion. -/
def listAsU32 : List Nat → Option (List Nat)
  | [] => some []
  | n :: ns =>
      match u256AsU32 n, listAsU32 ns with
      | some v, some vs => some (v :: vs)
      | _, _ => none

/-- The field-by-field conversion performed inside `get_game_state`:
`start_time.as_u64()`, `last_draw_time.as_u64()`,
`number_count.as_u32() as i8`, `drawn_numbers.iter().map(|n| n.as_u32() as i8)`,
`player_count.as_u32() as i32`.  `none` models the `as_u32`/`as_u64`
panic on oversized values. -/
def gameStateOfTuple (t : GameStateTuple) : Option GameState :=
  match u256AsU64 t.startTime, u256AsU64 t.lastDrawTime, u256AsU32 t.numberCount,
      listAsU32 t.drawnNumbers, u256AsU32 t.playerCount with
  | some st, some ldt, some nc, some dns, some pc =>
      some { start_time := st
             last_draw_time := ldt
             drawn_numbers_count := u32AsI8 nc
             drawn_numbers := dns.map u32AsI8
             is_ended := t.isEnded
             player_count := u32AsI32 pc
             is_started := t.isStarted }
  | _, _, _, _, _ => none

/-- `format_game_status_message` from `main.rs`: not-started overrides
ended overrides active. -/
def format_game_status_message (s : GameState) : String :=
  if !s.is_started then "Game has not started yet"
  else if s.is_ended then "Game has ended"
  else "Game is active with " ++ toString s.player_count ++ " players. "
        ++ toString s.drawn_numbers_count ++ " numbers drawn so far"

/-- A parsed 20-byte wallet address, carried as its validated source
string. -/
structure Address where
  raw : String
  deriving Repr, DecidableEq

/-- Hexadecimal digit test used by address parsing. -/
def hexDigit (c : Char) : Bool :=
  ('0' ≤ c && c ≤ '9') || ('a' ≤ c && c ≤ 'f') || ('A' ≤ c && c ≤ 'F')

/-- Modelled at the external interface boundary: `str::parse::<Address>`
from the ethers/primitive-types crates accepts an optional `0x` prefix
followed by exactly 40 hexadecimal digits. -/
def parseAddress (s : String) : Option Address :=
  let cs := s.toList
  let body := if cs.take 2 = ['0', 'x'] ∨ cs.take 2 = ['0', 'X'] then cs.drop 2 else cs
  if body.length = 40 ∧ body.all hexDigit then some ⟨s⟩ else none

/-- One emitted log record: a list of topics, each topic a list of byte
values.  (In ethers a topic is a fixed 32-byte word; the byte payload is
kept as a plain list so extraction's length check is meaningful.) -/
structure EventLog where
  topics : List (List Nat)
  deriving Repr, DecidableEq

/-- A transaction receipt as used by the service: identifying hash, the
confirming block, and the ordered emitted logs. -/
structure TransactionReceipt where
  transaction_hash : String
  block_number : Option Nat
  logs : List EventLog
  deriving Repr, DecidableEq

/-- `extract_card_numbers_from_receipt` from `main.rs`: take the first
log, require a second topic, read its bytes one at a time as `u32`
values, and accept the result only when exactly 25 values were read. -/
def extract_card_numbers_from_receipt (receipt : TransactionReceipt) :
    Except String (List Nat) :=
  match receipt.logs.get? 0 with
  | some log =>
      match log.topics.get? 1 with
      | some topic =>
          let numbers := topic.map (fun b => b % 256)
          if numbers.length = 25 then .ok numbers
          else .error "Failed to extract card numbers from receipt"
      | none => .error "Failed to extract card numbers from receipt"
  | none => .error "Failed to extract card numbers from receipt"

/-- Per-chain configuration held in the registry (`ChainState` in
`main.rs`; the constructed contract client itself is abstracted into the
oracle). -/
structure ChainState where
  rpc_url : String
  contract_address : String
  private_key : String
  deriving Repr, DecidableEq

/-- The Session Registry: the `HashMap<String, ChainState>` behind the
tokio mutex, modelled as an association list queried with
`List.lookup`. -/
abbrev Registry := List (String × ChainState)

/-- The outcome of every remote operation a single handler invocation or
submitter cycle may perform, fixed up front: the external Ledger Client
and contract are collaborators outside this system. -/
structure Oracle where
  /-- result of the `getCurrentGameState` read-only call -/
  gameStateResult : Except String GameStateTuple
  /-- result of the `isGameStarted` read-only call -/
  isGameStartedResult : Except String Bool
  /-- result of sending the `assignCard` transaction -/
  assignCardSend : Except String Unit
  /-- result of awaiting the `assignCard` confirmation -/
  assignCardConfirm : Except String (Option TransactionReceipt)
  /-- result of the `getPlayerCards` read-only call (25 values) -/
  playerCardsResult : Except String (List Nat)
  /-- result of sending the `submitDrawnNumber` transaction -/
  submitNumberSend : Except String Unit
  /-- result of awaiting the `submitDrawnNumber` confirmation -/
  submitNumberConfirm : Except String (Option TransactionReceipt)
  /-- result of sending the `claimWin` transaction -/
  claimWinSend : Except String Unit
  /-- result of awaiting the `claimWin` confirmation -/
  claimWinConfirm : Except String (Option TransactionReceipt)
  /-- the boolean the contract's `claimWin` computes on-chain; it is not
  part of any receipt and can only influence a response if the code
  inspects it -/
  claimWinContractBool : Bool
  /-- the `rng.gen::<u64>()` seed drawn in `purchase_card` -/
  randomSeed : Nat
  /-- the `rng.gen::<u8>()` byte drawn in `submit_number` -/
  randomByte : Nat
  deriving Repr

/-- Observable steps of a handler invocation or submitter cycle, in
execution order: registry-lock acquisition/release, the map lookup, and
each call that goes out to the Ledger Client. -/
inductive Event where
  | lockAcquire
  | mapLookup (chain : String)
  | lockRelease
  | callGetCurrentGameState
  | callIsGameStarted
  | callGetPlayerCards (player : Address)
  | sendAssignCard (player : Address) (seed : Nat)
  | sendSubmitDrawnNumber (n : Nat)
  | sendClaimWin (player : Address)
  | awaitConfirmation
  deriving Repr, DecidableEq

/-- Whether an event is a network call to the Ledger Client. -/
def Event.isRemote : Event → Bool
  | .callGetCurrentGameState => true
  | .callIsGameStarted => true
  | .callGetPlayerCards _ => true
  | .sendAssignCard _ _ => true
  | .sendSubmitDrawnNumber _ => true
  | .sendClaimWin _ => true
  | .awaitConfirmation => true
  | _ => false

/-- The uniform response envelope `ApiResponse<T>` of `main.rs`. -/
structure ApiResponse (T : Type) where
  success : Bool
  message : String
  data : Option T
  deriving Repr, DecidableEq

/-- A handler's HTTP-level outcome: a 200 JSON envelope, an HTTP error
status (404/400/500), or a Rust panic inside the handler. -/
inductive HandlerResult (T : Type) where
  | ok (r : ApiResponse T)
  | status (code : Nat)
  | panicked
  deriving Repr, DecidableEq

/-- The `BingoCard` response struct: the confirming transaction hash. -/
structure BingoCard where
  transaction_hash : String
  deriving Repr, DecidableEq

/-- Handler `GET /game/state/<chain_name>`.  The tokio mutex guard is
taken first and — because `state` borrows from it — dropped only when the
function returns, so `lockRelease` is the final event on every path. -/
def get_game_state (chain_name : String) (registry : Registry) (o : Oracle) :
    HandlerResult GameState × List Event :=
  match registry.lookup chain_name with
  | none => (.status 404, [.lockAcquire, .mapLookup chain_name, .lockRelease])
  | some _ =>
      match o.gameStateResult with
      | .ok t =>
          match gameStateOfTuple t with
          | some gs =>
              (.ok { success := true
                     message := format_game_status_message gs
                     data := some gs },
               [.lockAcquire, .mapLookup chain_name, .callGetCurrentGameState, .lockRelease])
          | none =>
              (.panicked,
               [.lockAcquire, .mapLookup chain_name, .callGetCurrentGameState, .lockRelease])
      | .error e =>
          (.ok { success := false
                 message := "Failed to get game state: " ++ e
                 data := none },
           [.lockAcquire, .mapLookup chain_name, .callGetCurrentGameState, .lockRelease])

/-- Handler `POST /card/purchase/<chain_name>`.  Order of operations as
in the source: lock, lookup, game-state read, started check, rng seed,
wallet-address parse, `assignCard` send, confirmation await; the guard is
dropped at function return. -/
def purchase_card (chain_name : String) (walletAddress : String)
    (registry : Registry) (o : Oracle) :
    HandlerResult BingoCard × List Event :=
  match registry.lookup chain_name with
  | none => (.status 404, [.lockAcquire, .mapLookup chain_name, .lockRelease])
  | some _ =>
      match o.gameStateResult with
      | .error e =>
          (.ok { success := false
                 message := "Failed to check game state: " ++ e
                 data := none },
           [.lockAcquire, .mapLookup chain_name, .callGetCurrentGameState, .lockRelease])
      | .ok t =>
          if t.isStarted then
            (.ok { success := false
                   message := "Game has already started"
                   data := none },
             [.lockAcquire, .mapLookup chain_name, .callGetCurrentGameState, .lockRelease])
          else
            let random_number := o.randomSeed % 2 ^ 64
            match parseAddress walletAddress with
            | none =>
                (.status 400,
                 [.lockAcquire, .mapLookup chain_name, .callGetCurrentGameState, .lockRelease])
            | some wallet_address =>
                match o.assignCardSend with
                | .error e =>
                    (.ok { success := false
                           message := "Failed to send transaction: " ++ e
                           data := none },
                     [.lockAcquire, .mapLookup chain_name, .callGetCurrentGameState,
                      .sendAssignCard wallet_address random_number, .lockRelease])
                | .ok _ =>
                    match o.assignCardConfirm with
                    | .error e =>
                        (.ok { success := false
                               message := "Transaction failed: " ++ e
                               data := none },
                         [.lockAcquire, .mapLookup chain_name, .callGetCurrentGameState,
                          .sendAssignCard wallet_address random_number, .awaitConfirmation,
                          .lockRelease])
                    | .ok none =>
                        (.status 500,
                         [.lockAcquire, .mapLookup chain_name, .callGetCurrentGameState,
                          .sendAssignCard wallet_address random_number, .awaitConfirmation,
                          .lockRelease])
                    | .ok (some receipt) =>
                        (.ok { success := true
                               message := "Bingo card purchased and assigned successfully"
                               data := some { transaction_hash := receipt.transaction_hash } },
                         [.lockAcquire, .mapLookup chain_name, .callGetCurrentGameState,
                          .sendAssignCard wallet_address random_number, .awaitConfirmation,
                          .lockRelease])

/-- Handler `POST /card/get/<chain_name>`: lock, lookup, wallet-address
parse, then one `getPlayerCards` read-only call. -/
def get_card (chain_name : String) (walletAddress : String)
    (registry : Registry) (o : Oracle) :
    HandlerResult (List Nat) × List Event :=
  match registry.lookup chain_name with
  | none => (.status 404, [.lockAcquire, .mapLookup chain_name, .lockRelease])
  | some _ =>
      match parseAddress walletAddress with
      | none => (.status 400, [.lockAcquire, .mapLookup chain_name, .lockRelease])
      | some wallet_address =>
          match o.playerCardsResult with
          | .ok cards =>
              (.ok { success := true, message := "Get Card", data := some cards },
               [.lockAcquire, .mapLookup chain_name, .callGetPlayerCards wallet_address,
                .lockRelease])
          | .error e =>
              (.ok { success := false
                     message := "Failed to get player cards: " ++ e
                     data := none },
               [.lockAcquire, .mapLookup chain_name, .callGetPlayerCards wallet_address,
                .lockRelease])

/-- Handler `POST /card/challenge/<chain_name>`: lock, lookup,
wallet-address parse, `claimWin` send, confirmation await.  The receipt
of a successful confirmation is bound to `_` and never inspected. -/
def challenge (chain_name : String) (walletAddress : String)
    (registry : Registry) (o : Oracle) :
    HandlerResult Bool × List Event :=
  match registry.lookup chain_name with
  | none => (.status 404, [.lockAcquire, .mapLookup chain_name, .lockRelease])
  | some _ =>
      match parseAddress walletAddress with
      | none => (.status 400, [.lockAcquire, .mapLookup chain_name, .lockRelease])
      | some wallet_address =>
          match o.claimWinSend with
          | .error e =>
              (.ok { success := false, message := "Invalid win " ++ e, data := some false },
               [.lockAcquire, .mapLookup chain_name, .sendClaimWin wallet_address,
                .lockRelease])
          | .ok _ =>
              match o.claimWinConfirm with
              | .error e =>
                  (.ok { success := false, message := "Invalid win " ++ e, data := some false },
                   [.lockAcquire, .mapLookup chain_name, .sendClaimWin wallet_address,
                    .awaitConfirmation, .lockRelease])
              | .ok _ =>
                  (.ok { success := true, message := "You won!", data := some true },
                   [.lockAcquire, .mapLookup chain_name, .sendClaimWin wallet_address,
                    .awaitConfirmation, .lockRelease])

/-- The number computed in one active `submit_number` cycle from the
random byte: `(random_number % 99) + 1` with `random_number : u8`. -/
def drawnNumber (b : Nat) : Nat :=
  b % 256 % 99 + 1

/-- One cycle of the background submitter's `submit_number`: read-only
`isGameStarted` check, then — only when it returns true — draw a number,
send `submitDrawnNumber`, and await confirmation.  `?` error propagation
becomes `Except`. -/
def submit_number (o : Oracle) : Except String Unit × List Event :=
  match o.isGameStartedResult with
  | .error e => (.error e, [.callIsGameStarted])
  | .ok false => (.ok (), [.callIsGameStarted])
  | .ok true =>
      let number := drawnNumber o.randomByte
      match o.submitNumberSend, o.submitNumberConfirm with
      | .error e, _ =>
          (.error e, [.callIsGameStarted, .sendSubmitDrawnNumber number])
      | .ok _, .error e =>
          (.error e, [.callIsGameStarted, .sendSubmitDrawnNumber number, .awaitConfirmation])
      | .ok _, .ok _ =>
          (.ok (), [.callIsGameStarted, .sendSubmitDrawnNumber number, .awaitConfirmation])

/-- Observable steps of one chain's background activity spawned in
`BackgroundFairing::on_ignite`: a full submission cycle (the
`submit_number` call, which runs to completion before the flag is read
again), the 15-second sleep of the same iteration, and the terminal
"Background task stopped" log on exit. -/
inductive LoopEvent where
  | cycle (i : Nat)
  | sleepDone (i : Nat)
  | stoppedLog
  deriving Repr, DecidableEq

/-- The background loop of `on_ignite`: `while is_running.load() { submit_number; sleep }`
followed by the termination log.  `flag i` is the value the `AtomicBool`
holds when the loop condition is evaluated for the `i`-th time; the flag
is read only there, so a whole iteration (cycle then sleep) runs between
consecutive reads.  `fuel` bounds how far the unbounded loop is
observed; exhausted fuel means the activity is still running. -/
def backgroundLoop (flag : Nat → Bool) : Nat → Nat → List LoopEvent
  | 0, _ => []
  | fuel + 1, i =>
      if flag i then
        .cycle i :: .sleepDone i :: backgroundLoop flag fuel (i + 1)
      else
        [.stoppedLog]

/-- `BackgroundSubmitter::stop` stores `false` once; the `AtomicBool` is
never set back to `true`, so flag histories of interest are monotone:
false from some point on, true before. -/
def stoppedFrom (flag : Nat → Bool) (t : Nat) : Prop :=
  ∀ k, t ≤ k → flag k = false

/-- Startup events of the `rocket()` launch function: construction of one
Chain Session (`ChainState::new`) per configured tuple. -/
inductive StartupEvent where
  | constructSession (rpc addr key name : String)
  deriving Repr, DecidableEq

/-- The per-index construction loop of `rocket()`: for each `i`, build a
`ChainState` from `rpc_urls[i], contract_addresses[i], private_keys[i]`
and insert it under `chain_names[i]`. -/
def buildRegistry : List String → List String → List String → List String →
    Registry × List StartupEvent
  | rpc :: rpcs, addr :: addrs, key :: keys, name :: names =>
      let rest := buildRegistry rpcs addrs keys names
      ((name, { rpc_url := rpc, contract_address := addr, private_key := key }) :: rest.1,
       .constructSession rpc addr key name :: rest.2)
  | _, _, _, _ => ([], [])

/-- The configuration phase of `rocket()` after splitting the four
comma-separated environment variables: panic (modelled as `.error`) when
the list lengths differ, otherwise construct every Chain Session and
populate the registry. -/
def rocketStartup (rpc_urls contract_addresses private_keys chain_names : List String) :
    Except String Registry × List StartupEvent :=
  if rpc_urls.length ≠ contract_addresses.length
      ∨ rpc_urls.length ≠ private_keys.length
      ∨ rpc_urls.length ≠ chain_names.length then
    (.error "RPC_URLS, CONTRACT_ADDRESSES, PRIVATE_KEYS, and CHAIN_NAMES must have the same length",
     [])
  else
    let built := buildRegistry rpc_urls contract_addresses private_keys chain_names
    (.ok built.1, built.2)

/-! ### Concrete fixtures used by counterexamples and witnesses -/

/-- A sample chain configuration. -/
def testChain : ChainState :=
  { rpc_url := "http://localhost:8545"
    contract_address := "0x00000000000000000000000000000000000000aa"
    private_key := "key" }

/-- A registry holding the single chain "testnet". -/
def testRegistry : Registry := [("testnet", testChain)]

/-- A game-state tuple with the started flag false. -/
def tupleNotStarted : GameStateTuple :=
  { startTime := 0, lastDrawTime := 0, numberCount := 3, drawnNumbers := [7, 12, 44]
    isEnded := false, playerCount := 2, isStarted := false }

/-- A game-state tuple with the started flag true. -/
def tupleStarted : GameStateTuple :=
  { tupleNotStarted with isStarted := true }

/-- A sample confirmed receipt. -/
def receiptA : TransactionReceipt :=
  { transaction_hash := "0xabc", block_number := some 1, logs := [] }

/-- An oracle on which every remote operation succeeds and the game has
not started. -/
def baseOracle : Oracle :=
  { gameStateResult := .ok tupleNotStarted
    isGameStartedResult := .ok false
    assignCardSend := .ok ()
    assignCardConfirm := .ok (some receiptA)
    playerCardsResult := .ok (List.range 25)
    submitNumberSend := .ok ()
    submitNumberConfirm := .ok (some receiptA)
    claimWinSend := .ok ()
    claimWinConfirm := .ok (some receiptA)
    claimWinContractBool := true
    randomSeed := 42
    randomByte := 5 }

/-- `baseOracle` with the game reported as started. -/
def startedOracle : Oracle :=
  { baseOracle with gameStateResult := .ok tupleStarted }

/-- `baseOracle` with the background `isGameStarted` check returning
true. -/
def activeOracle : Oracle :=
  { baseOracle with isGameStartedResult := .ok true }

/-- A well-formed wallet address string. -/
def goodAddr : String := "0x1111111111111111111111111111111111111111"

/-! ### C1 -/

/-- Whether, in an event trace, some remote call to the Ledger Client is
issued before the registry lock is released. -/
def remoteBeforeRelease (tr : List Event) : Bool :=
  (tr.takeWhile (fun e => decide (e ≠ Event.lockRelease))).any Event.isRemote

/-- A trace in which the registry lock is taken as the first step and
given back only as the last step, so everything in between — including
every remote call — runs while the lock is held. -/
def lockHeldThroughout (tr : List Event) : Prop :=
  ∃ mid, tr = .lockAcquire :: (mid ++ [.lockRelease]) ∧
    Event.lockAcquire ∉ mid ∧ Event.lockRelease ∉ mid

/-- Claim C1 (counterexample): on the known chain "testnet" the
game-state handler issues its remote `getCurrentGameState` call before
the registry lock is released — the lock is not released before the
network call, refuting the claim as stated. -/
theorem getGameState_remote_call_under_lock_cex :
    (get_game_state "testnet" testRegistry baseOracle).2 =
      [.lockAcquire, .mapLookup "testnet", .callGetCurrentGameState, .lockRelease] ∧
    remoteBeforeRelease (get_game_state "testnet" testRegistry baseOracle).2 = true := by
  constructor
  · rfl
  · rfl

/-- Claim C1 (amended): for every invocation of the game-state and
card-purchase handlers, the registry lock is acquired on entry and
released only when the handler returns; any remote call to the Ledger
Client is issued strictly between the two, i.e. while the lock is held
(the handler operates on the session borrowed from the locked map). -/
theorem lock_held_for_entire_handler (chain addr : String) (reg : Registry)
    (o : Oracle) :
    lockHeldThroughout (get_game_state chain reg o).2 ∧
    lockHeldThroughout (purchase_card chain addr reg o).2 := by
  constructor
  · unfold get_game_state
    split
    · exact ⟨[.mapLookup chain], rfl, by simp, by simp⟩
    · split
      · split
        · exact ⟨[.mapLookup chain, .callGetCurrentGameState], rfl, by simp, by simp⟩
        · exact ⟨[.mapLookup chain, .callGetCurrentGameState], rfl, by simp, by simp⟩
      · exact ⟨[.mapLookup chain, .callGetCurrentGameState], rfl, by simp, by simp⟩
  · unfold purchase_card
    split
    · exact ⟨[.mapLookup chain], rfl, by simp, by simp⟩
    · split
      · exact ⟨[.mapLookup chain, .callGetCurrentGameState], rfl, by simp, by simp⟩
      · split
        · exact ⟨[.mapLookup chain, .callGetCurrentGameState], rfl, by simp, by simp⟩
        · split
          · exact ⟨[.mapLookup chain, .callGetCurrentGameState], rfl, by simp, by simp⟩
          · split
            · exact ⟨[.mapLookup chain, .callGetCurrentGameState,
                .sendAssignCard _ _], rfl, by simp, by simp⟩
            · split
              · exact ⟨[.mapLookup chain, .callGetCurrentGameState,
                  .sendAssignCard _ _, .awaitConfirmation], rfl, by simp, by simp⟩
              · exact ⟨[.mapLookup chain, .callGetCurrentGameState,
                  .sendAssignCard _ _, .awaitConfirmation], rfl, by simp, by simp⟩
              · exact ⟨[.mapLookup chain, .callGetCurrentGameState,
                  .sendAssignCard _ _, .awaitConfirmation], rfl, by simp, by simp⟩

/-! ### C2 -/

/-- Claim C2 (counterexample): on the known chain "testnet" with the
malformed wallet address "nonsense" and a game that has not started,
`purchase_card` does answer HTTP 400 — but only after issuing the remote
`getCurrentGameState` call, refuting "without attempting any remote
call". -/
theorem purchase_malformed_address_remote_call_cex :
    (purchase_card "testnet" "nonsense" testRegistry baseOracle).1 = .status 400 ∧
    (purchase_card "testnet" "nonsense" testRegistry baseOracle).2.any Event.isRemote
      = true := by
  constructor
  · rfl
  · rfl

/-- Claim C2 (amended): on a known chain, for every malformed
wallet-address string, the card-get and card-challenge handlers return
HTTP 400 without attempting any remote call; the card-purchase handler
first performs the game-state read and returns HTTP 400 only when that
read succeeds and reports the game as not started, with that read as its
only remote call — in particular no write transaction is ever attempted
with a malformed address. -/
theorem malformed_address_handling (chain addr : String) (reg : Registry)
    (cs : ChainState) (o : Oracle)
    (hl : reg.lookup chain = some cs)
    (ha : parseAddress addr = none) :
    ((get_card chain addr reg o).1 = .status 400 ∧
      (get_card chain addr reg o).2.any Event.isRemote = false) ∧
    ((challenge chain addr reg o).1 = .status 400 ∧
      (challenge chain addr reg o).2.any Event.isRemote = false) ∧
    (∀ t, o.gameStateResult = .ok t → t.isStarted = false →
      (purchase_card chain addr reg o).1 = .status 400 ∧
      (purchase_card chain addr reg o).2.filter Event.isRemote
        = [.callGetCurrentGameState]) := by
  refine ⟨?_, ?_, ?_⟩
  · unfold get_card
    rw [hl, ha]
    simp [Event.isRemote]
  · unfold challenge
    rw [hl, ha]
    simp [Event.isRemote]
  · intro t hg hs
    unfold purchase_card
    rw [hl, hg]
    simp [hs, ha, Event.isRemote]

/-- Witness for C2's amended claim at the concrete chain "testnet",
malformed address "nonsense" and `baseOracle`. -/
theorem malformed_address_handling_witness :
    ((get_card "testnet" "nonsense" testRegistry baseOracle).1 = .status 400 ∧
      (get_card "testnet" "nonsense" testRegistry baseOracle).2.any Event.isRemote
        = false) ∧
    ((challenge "testnet" "nonsense" testRegistry baseOracle).1 = .status 400 ∧
      (challenge "testnet" "nonsense" testRegistry baseOracle).2.any Event.isRemote
        = false) ∧
    (∀ t, baseOracle.gameStateResult = .ok t → t.isStarted = false →
      (purchase_card "testnet" "nonsense" testRegistry baseOracle).1 = .status 400 ∧
      (purchase_card "testnet" "nonsense" testRegistry baseOracle).2.filter
          Event.isRemote = [.callGetCurrentGameState]) :=
  malformed_address_handling "testnet" "nonsense" testRegistry testChain baseOracle
    rfl (by decide)

/-! ### C3 -/

/-- Claim C3 (confirmed): in every background-submitter cycle, if the
read-only `isGameStarted` check returns false, the cycle performs only
that read — no `submitDrawnNumber` transaction is sent and the cycle
returns Ok. -/
theorem inactive_cycle_no_submit (o : Oracle)
    (h : o.isGameStartedResult = .ok false) :
    (submit_number o).1 = .ok () ∧ (submit_number o).2 = [.callIsGameStarted] ∧
    ∀ n, Event.sendSubmitDrawnNumber n ∉ (submit_number o).2 := by
  unfold submit_number
  rw [h]
  simp

/-- Witness for C3 at the concrete oracle `baseOracle`. -/
theorem inactive_cycle_no_submit_witness :
    (submit_number baseOracle).1 = .ok () ∧
    (submit_number baseOracle).2 = [.callIsGameStarted] ∧
    ∀ n, Event.sendSubmitDrawnNumber n ∉ (submit_number baseOracle).2 :=
  inactive_cycle_no_submit baseOracle rfl

/-! ### C4 -/

/-- Any submission cycle observed in the background loop started at
iteration `i` was entered with the flag reading true, and not before
iteration `i`. -/
theorem backgroundLoop_cycle_flag (flag : Nat → Bool) :
    ∀ fuel i k, LoopEvent.cycle k ∈ backgroundLoop flag fuel i →
      flag k = true ∧ i ≤ k := by
  intro fuel
  induction fuel with
  | zero => intro i k h; simp [backgroundLoop] at h
  | succ n ih =>
      intro i k h
      unfold backgroundLoop at h
      by_cases hf : flag i
      · rw [if_pos hf] at h
        simp only [List.mem_cons] at h
        rcases h with h | h | h
        · injection h with hk
          subst hk
          exact ⟨hf, le_refl _⟩
        · simp at h
        · rcases ih (i + 1) k h with ⟨h1, h2⟩
          exact ⟨h1, by omega⟩
      · rw [if_neg hf] at h
        simp at h

/-- Every iteration that starts a cycle also completes its sleep before
the flag is read again. -/
theorem backgroundLoop_sleep_completes (flag : Nat → Bool) :
    ∀ fuel i k, LoopEvent.cycle k ∈ backgroundLoop flag fuel i →
      LoopEvent.sleepDone k ∈ backgroundLoop flag fuel i := by
  intro fuel
  induction fuel with
  | zero => intro i k h; simp [backgroundLoop] at h
  | succ n ih =>
      intro i k h
      unfold backgroundLoop at h ⊢
      by_cases hf : flag i
      · rw [if_pos hf] at h ⊢
        simp only [List.mem_cons] at h
        rcases h with h | h | h
        · injection h with hk
          subst hk
          simp
        · simp at h
        · have := ih (i + 1) k h
          simp [this]
      · rw [if_neg hf] at h
        simp at h

/-- Once the flag reads false the loop exits and logs termination; with
enough fuel to reach the stop point, the termination log appears. -/
theorem backgroundLoop_terminates (flag : Nat → Bool) (t : Nat)
    (hstop : stoppedFrom flag t) :
    ∀ fuel i, t + 1 ≤ i + fuel → 1 ≤ fuel →
      LoopEvent.stoppedLog ∈ backgroundLoop flag fuel i := by
  intro fuel
  induction fuel with
  | zero => intro i h1 h2; omega
  | succ n ih =>
      intro i h1 h2
      unfold backgroundLoop
      by_cases hf : flag i
      · rw [if_pos hf]
        have hit : i < t := by
          by_contra hc
          exact absurd (hstop i (by omega)) (by simp [hf])
        have := ih (i + 1) (by omega) (by omega)
        simp [this]
      · rw [if_neg hf]
        simp

/-- Claim C4 (confirmed): once the shared stop flag is cleared (it stays
false from time `t` on, as `stop()` only ever stores false), no
background activity begins a submission cycle at or after `t`; every
cycle that did start also completes its sleep before the next flag
check; and with the loop observed past `t` the activity exits and logs
termination. -/
theorem stop_flag_halts_background_loop (flag : Nat → Bool) (t fuel : Nat)
    (hstop : stoppedFrom flag t) :
    (∀ k, LoopEvent.cycle k ∈ backgroundLoop flag fuel 0 → k < t) ∧
    (∀ k, LoopEvent.cycle k ∈ backgroundLoop flag fuel 0 →
      LoopEvent.sleepDone k ∈ backgroundLoop flag fuel 0) ∧
    (t < fuel → LoopEvent.stoppedLog ∈ backgroundLoop flag fuel 0) := by
  refine ⟨?_, ?_, ?_⟩
  · intro k hk
    rcases backgroundLoop_cycle_flag flag fuel 0 k hk with ⟨h1, _⟩
    by_contra hc
    exact absurd (hstop k (by omega)) (by simp [h1])
  · intro k hk
    exact backgroundLoop_sleep_completes flag fuel 0 k hk
  · intro hfuel
    exact backgroundLoop_terminates flag t hstop fuel 0 (by omega) (by omega)

/-- Witness for C4: flag true for the first two loop iterations, stop
observed from iteration 2 on, with 5 iterations of fuel. -/
theorem stop_flag_halts_background_loop_witness :
    (∀ k, LoopEvent.cycle k ∈ backgroundLoop (fun k => decide (k < 2)) 5 0 → k < 2) ∧
    (∀ k, LoopEvent.cycle k ∈ backgroundLoop (fun k => decide (k < 2)) 5 0 →
      LoopEvent.sleepDone k ∈ backgroundLoop (fun k => decide (k < 2)) 5 0) ∧
    (2 < 5 → LoopEvent.stoppedLog ∈ backgroundLoop (fun k => decide (k < 2)) 5 0) :=
  stop_flag_halts_background_loop (fun k => decide (k < 2)) 2 5
    (by intro k hk; simp; omega)

/-! ### C5 -/

/-- Claim C5 (confirmed): on a known chain, when the game-state read
reports the started flag as true, `purchase_card` answers the 200
envelope `success = false` with message exactly "Game has already
started", and no `assignCard` write transaction is ever sent. -/
theorem purchase_refused_when_started (chain addr : String) (reg : Registry)
    (cs : ChainState) (o : Oracle) (t : GameStateTuple)
    (hl : reg.lookup chain = some cs)
    (hg : o.gameStateResult = .ok t)
    (hs : t.isStarted = true) :
    (purchase_card chain addr reg o).1 =
      .ok { success := false, message := "Game has already started", data := none } ∧
    ∀ p s, Event.sendAssignCard p s ∉ (purchase_card chain addr reg o).2 := by
  unfold purchase_card
  rw [hl, hg]
  simp [hs]

/-- Witness for C5 at the concrete chain "testnet" and `startedOracle`. -/
theorem purchase_refused_when_started_witness :
    (purchase_card "testnet" goodAddr testRegistry startedOracle).1 =
      .ok { success := false, message := "Game has already started", data := none } ∧
    ∀ p s, Event.sendAssignCard p s ∉
      (purchase_card "testnet" goodAddr testRegistry startedOracle).2 :=
  purchase_refused_when_started "testnet" goodAddr testRegistry testChain
    startedOracle tupleStarted rfl rfl rfl

/-! ### C6 -/

/-- Claim C6 (confirmed): when the four comma-separated configuration
lists do not all have equal length, startup fails fatally with the
length-mismatch panic message and no Chain Session construction is ever
begun — the registry can never be partially populated. -/
theorem mismatched_config_fails_before_construction
    (rpc_urls contract_addresses private_keys chain_names : List String)
    (h : ¬(rpc_urls.length = contract_addresses.length ∧
           contract_addresses.length = private_keys.length ∧
           private_keys.length = chain_names.length)) :
    rocketStartup rpc_urls contract_addresses private_keys chain_names =
      (.error "RPC_URLS, CONTRACT_ADDRESSES, PRIVATE_KEYS, and CHAIN_NAMES must have the same length",
       []) := by
  unfold rocketStartup
  split
  · rfl
  · rename_i hc
    exfalso
    push_neg at hc
    exact h ⟨hc.1, hc.1 ▸ hc.2.1, hc.2.1 ▸ hc.2.2⟩

/-- Witness for C6 at a concrete mismatched configuration: two endpoints
but one entry in each other list. -/
theorem mismatched_config_fails_before_construction_witness :
    rocketStartup ["u1", "u2"] ["a1"] ["k1"] ["n1"] =
      (.error "RPC_URLS, CONTRACT_ADDRESSES, PRIVATE_KEYS, and CHAIN_NAMES must have the same length",
       []) :=
  mismatched_config_fails_before_construction ["u1", "u2"] ["a1"] ["k1"] ["n1"]
    (by decide)

/-! ### C7 -/

/-- Claim C7 (confirmed): card extraction succeeds exactly when the
receipt has a first log whose second topic carries exactly 25 byte
values, in which case those values are returned in order; with no first
log, no second topic, or any byte count other than 25 (e.g. 24 or 26),
it fails with the extraction error. -/
theorem extract_card_numbers_spec (receipt : TransactionReceipt) :
    (∀ log topic, receipt.logs.get? 0 = some log →
        log.topics.get? 1 = some topic →
        ((topic.length = 25 → (∀ b ∈ topic, b < 256) →
            extract_card_numbers_from_receipt receipt = .ok topic) ∧
         (topic.length ≠ 25 →
            extract_card_numbers_from_receipt receipt =
              .error "Failed to extract card numbers from receipt"))) ∧
    (receipt.logs.get? 0 = none →
      extract_card_numbers_from_receipt receipt =
        .error "Failed to extract card numbers from receipt") ∧
    (∀ log, receipt.logs.get? 0 = some log → log.topics.get? 1 = none →
      extract_card_numbers_from_receipt receipt =
        .error "Failed to extract card numbers from receipt") := by
  refine ⟨?_, ?_, ?_⟩
  · intro log topic h0 h1
    rw [List.get?_eq_getElem?] at h0 h1
    constructor
    · intro hlen hbytes
      have hmap : topic.map (fun b => b % 256) = topic := by
        have := List.map_congr_left (l := topic)
          (f := fun b => b % 256) (g := id)
          (fun b hb => Nat.mod_eq_of_lt (hbytes b hb))
        simpa using this
      unfold extract_card_numbers_from_receipt
      simp [h0, h1, hlen, hmap]
    · intro hlen
      unfold extract_card_numbers_from_receipt
      simp [h0, h1, hlen]
  · intro h0
    rw [List.get?_eq_getElem?] at h0
    unfold extract_card_numbers_from_receipt
    simp [h0]
  · intro log h0 h1
    rw [List.get?_eq_getElem?] at h0 h1
    unfold extract_card_numbers_from_receipt
    simp [h0, h1]

/-- A receipt whose first log's second topic carries exactly 25 byte
values. -/
def receipt25 : TransactionReceipt :=
  { transaction_hash := "0x1", block_number := some 2
    logs := [{ topics := [[], List.range 25] }] }

/-- A receipt whose first log's second topic carries only 24 byte
values. -/
def receipt24 : TransactionReceipt :=
  { transaction_hash := "0x2", block_number := some 3
    logs := [{ topics := [[], List.range 24] }] }

/-- Witness for C7: extraction succeeds in order on a 25-byte topic and
fails on a 24-byte topic. -/
theorem extract_card_numbers_spec_witness :
    extract_card_numbers_from_receipt receipt25 = .ok (List.range 25) ∧
    extract_card_numbers_from_receipt receipt24 =
      .error "Failed to extract card numbers from receipt" :=
  ⟨((extract_card_numbers_spec receipt25).1 { topics := [[], List.range 25] }
      (List.range 25) rfl rfl).1 (by decide) (by decide),
   ((extract_card_numbers_spec receipt24).1 { topics := [[], List.range 24] }
      (List.range 24) rfl rfl).2 (by decide)⟩

/-! ### C9 -/

/-- A `u32` whose low byte is at least 128 truncates to a negative
signed byte. -/
theorem u32AsI8_neg (c : Nat) (h : 128 ≤ c % 256) : u32AsI8 c < 0 := by
  unfold u32AsI8
  have : c % 256 < 256 := Nat.mod_lt _ (by norm_num)
  split
  · omega
  · omega

/-- A successful `listAsU32` returns its input unchanged. -/
theorem listAsU32_eq (l : List Nat) :
    ∀ l2, listAsU32 l = some l2 → l2 = l := by
  induction l with
  | nil => intro l2 h; simpa [listAsU32] using h.symm
  | cons x xs ih =>
      intro l2 h
      unfold listAsU32 at h
      rcases hx : u256AsU32 x with _ | y <;> rw [hx] at h
      · simp at h
      · rcases hxs : listAsU32 xs with _ | ys <;> rw [hxs] at h
        · simp at h
        · simp at h
          have hy : y = x := by
            unfold u256AsU32 at hx
            split at hx
            · injection hx with hx2
              omega
            · cases hx
          rw [← h, hy, ih ys hxs]

/-- Claim C9 (counterexample): a drawn-number count of 256 — greater
than 127 — is reported to the client as 0, which is not negative,
refuting "any drawn-number count greater than 127 is reported as a
negative value". -/
theorem drawn_count_truncation_cex :
    (gameStateOfTuple
        { startTime := 0, lastDrawTime := 0, numberCount := 256, drawnNumbers := []
          isEnded := false, playerCount := 0, isStarted := false }).map
        GameState.drawn_numbers_count = some 0 ∧
    127 < 256 ∧ ¬((0 : Int) < 0) := by
  refine ⟨?_, by norm_num, by norm_num⟩
  rfl

/-- Claim C9 (amended): the game-state handler converts the drawn-number
count and every drawn number to signed 8-bit integers by truncation and
the player count to a signed 32-bit integer by reinterpretation;
consequently any drawn-number count whose low byte is at least 128 — in
particular every count in 128..=255 — is reported to the client as a
negative value. -/
theorem drawn_count_truncation (t : GameStateTuple) (gs : GameState)
    (h : gameStateOfTuple t = some gs) :
    gs.drawn_numbers_count = u32AsI8 t.numberCount ∧
    gs.drawn_numbers = t.drawnNumbers.map u32AsI8 ∧
    gs.player_count = u32AsI32 t.playerCount ∧
    (128 ≤ t.numberCount % 256 → gs.drawn_numbers_count < 0) := by
  unfold gameStateOfTuple at h
  rcases h1 : u256AsU64 t.startTime with _ | st <;> rw [h1] at h
  · simp at h
  rcases h2 : u256AsU64 t.lastDrawTime with _ | ldt <;> rw [h2] at h
  · simp at h
  rcases h3 : u256AsU32 t.numberCount with _ | nc <;> rw [h3] at h
  · simp at h
  rcases h4 : listAsU32 t.drawnNumbers with _ | dns <;> rw [h4] at h
  · simp at h
  rcases h5 : u256AsU32 t.playerCount with _ | pc <;> rw [h5] at h
  · simp at h
  have hnc : nc = t.numberCount := by
    unfold u256AsU32 at h3
    split at h3
    · injection h3 with h3e; omega
    · cases h3
  have hpc : pc = t.playerCount := by
    unfold u256AsU32 at h5
    split at h5
    · injection h5 with h5e; omega
    · cases h5
  have hdns : dns = t.drawnNumbers := listAsU32_eq t.drawnNumbers dns h4
  injection h with hgs
  subst hgs
  refine ⟨by simp [hnc], by simp [hdns], by simp [hpc], ?_⟩
  intro hlow
  have hneg : u32AsI8 t.numberCount < 0 := u32AsI8_neg t.numberCount hlow
  simpa [hnc] using hneg

/-- A tuple whose drawn-number count 130 exercises the negative
truncation. -/
def tuple130 : GameStateTuple :=
  { startTime := 1, lastDrawTime := 2, numberCount := 130, drawnNumbers := [1, 200]
    isEnded := false, playerCount := 4, isStarted := true }

/-- The game state the handler reports for `tuple130`. -/
def gameState130 : GameState :=
  { start_time := 1, last_draw_time := 2, drawn_numbers_count := -126
    drawn_numbers := [1, -56], is_ended := false, player_count := 4
    is_started := true }

/-- Witness for C9's amended claim at the concrete count 130. -/
theorem drawn_count_truncation_witness :
    gameState130.drawn_numbers_count = u32AsI8 tuple130.numberCount ∧
    gameState130.drawn_numbers = tuple130.drawnNumbers.map u32AsI8 ∧
    gameState130.player_count = u32AsI32 tuple130.playerCount ∧
    (128 ≤ tuple130.numberCount % 256 → gameState130.drawn_numbers_count < 0) :=
  drawn_count_truncation tuple130 gameState130 (by decide)

/-! ### C8 -/

/-- Claim C8 (confirmed): every number the background submitter sends in
an active cycle lies in the inclusive range 1..99, for every value of
the underlying random byte. -/
theorem submitted_number_in_range (o : Oracle) (n : Nat)
    (h : Event.sendSubmitDrawnNumber n ∈ (submit_number o).2) :
    1 ≤ n ∧ n ≤ 99 := by
  have hr : ∀ b : Nat, 1 ≤ drawnNumber b ∧ drawnNumber b ≤ 99 := by
    intro b
    unfold drawnNumber
    omega
  unfold submit_number at h
  rcases hg : o.isGameStartedResult with e | b <;> rw [hg] at h
  · simp at h
  · rcases b with _ | _
    · simp at h
    · rcases hs : o.submitNumberSend with e | u <;>
        rcases hc : o.submitNumberConfirm with e2 | r <;>
        rw [hs, hc] at h <;> simp at h <;> rw [h] <;> exact hr o.randomByte

/-- Witness for C8: with `activeOracle` (random byte 5) the number 6 is
submitted and lies in range. -/
theorem submitted_number_in_range_witness : 1 ≤ 6 ∧ 6 ≤ 99 :=
  submitted_number_in_range activeOracle 6 (by decide)

/-! ### C10 -/

/-- Claim C10 (confirmed): on a known chain with a well-formed address,
whenever the `claimWin` send and its confirmation both resolve without
error — whatever the receipt, and whatever boolean the contract
computes — `challenge` answers `success = true`, message "You won!",
`data = true`; the contract's boolean never influences the response. -/
theorem challenge_ignores_contract_bool (chain addr : String) (reg : Registry)
    (cs : ChainState) (a : Address) (o : Oracle) (r : Option TransactionReceipt)
    (hl : reg.lookup chain = some cs)
    (ha : parseAddress addr = some a)
    (hs : o.claimWinSend = .ok ())
    (hc : o.claimWinConfirm = .ok r) :
    (challenge chain addr reg o).1 =
      .ok { success := true, message := "You won!", data := some true } ∧
    ∀ b, challenge chain addr reg { o with claimWinContractBool := b } =
      challenge chain addr reg o := by
  constructor
  · unfold challenge
    rw [hl, ha, hs, hc]
  · intro b
    rfl

/-- Witness for C10 at the concrete chain "testnet", address `goodAddr`
and `baseOracle`. -/
theorem challenge_ignores_contract_bool_witness :
    (challenge "testnet" goodAddr testRegistry baseOracle).1 =
      .ok { success := true, message := "You won!", data := some true } ∧
    ∀ b, challenge "testnet" goodAddr testRegistry
        { baseOracle with claimWinContractBool := b } =
      challenge "testnet" goodAddr testRegistry baseOracle :=
  challenge_ignores_contract_bool "testnet" goodAddr testRegistry testChain
    ⟨goodAddr⟩ baseOracle (some receiptA) rfl (by decide) rfl rfl

end Bingo
